import Mathlib

/-!
Verification of the Smart Kissan workflow interpreter
(`src/src/components/AgriMindChat.tsx`, embedded agent module
`SmartKissanAgent`, lines 870-1397 of the concatenated source).

The agent executes a declarative workflow: it evaluates guard conditions,
interpolates `\x7b\x7bpath\x7d\x7d` templates against a result bag, dispatches each
step to a handler, and substitutes per-step fallbacks on failure.
JavaScript numbers are embedded as exact rationals, JS objects as
association lists of `Value`s, `undefined` as `Option.none`, and thrown
exceptions as `Except String`.
-/

/-- A single character, the ASCII apostrophe, kept as a named constant. -/
def quoteChar : Char := Char.ofNat 39

/-- The opening curly brace character. -/
def openBrace : Char := Char.ofNat 123

/-- The closing curly brace character. -/
def closeBrace : Char := Char.ofNat 125

/-- JS whitespace characters (the ASCII portion of the class matched by
`\s`, `trim` and friends). -/
def isWsChar (c : Char) : Bool :=
  c = ' ' ∨ c = '\t' ∨ c = '\n' ∨ c = '\r' ∨ c = Char.ofNat 11 ∨ c = Char.ofNat 12

/-- Characters matched by the regex class `\w`. -/
def isWordChar (c : Char) : Bool :=
  ('a' ≤ c ∧ c ≤ 'z') ∨ ('A' ≤ c ∧ c ≤ 'Z') ∨ ('0' ≤ c ∧ c ≤ '9') ∨ c = '_'

/-- Substring test on character lists: does `needle` occur inside `hay`?
Mirrors JS `String.prototype.includes`. -/
def listContainsSub (hay needle : List Char) : Bool :=
  match hay with
  | [] => needle.isEmpty
  | _ :: t => needle.isPrefixOf hay || listContainsSub t needle

/-- JS `s.includes(t)`. -/
def strIncludes (s t : String) : Bool :=
  listContainsSub s.data t.data

/-- JS `String.prototype.trim`: drop whitespace from both ends. -/
def jsTrim (s : String) : String :=
  ⟨((s.data.dropWhile isWsChar).reverse.dropWhile isWsChar).reverse⟩

/-- ASCII lowering of one character; `toLowerCase` also lowers non-ASCII
letters, none of which occur in the keyword sets compared here. -/
def jsToLowerChar (c : Char) : Char :=
  if 'A' ≤ c ∧ c ≤ 'Z' then Char.ofNat (c.toNat + 32) else c

/-- JS `s.toLowerCase()`. -/
def strToLower (s : String) : String := ⟨s.data.map jsToLowerChar⟩

/-- Decimal digits of a natural number, most significant first; the fuel
argument (any bound of the digit count, here the number itself plus one)
keeps the recursion structural. -/
def natDigitsAux : ℕ → ℕ → List Char → List Char
  | 0, _, acc => acc
  | fuel + 1, n, acc =>
      if n < 10 then Char.ofNat (48 + n) :: acc
      else natDigitsAux fuel (n / 10) (Char.ofNat (48 + n % 10) :: acc)

/-- Decimal digits of a natural number, most significant first. -/
def natDigits (n : ℕ) : List Char := natDigitsAux (n + 1) n []

/-- Decimal rendering of an integer. -/
def intToStr (i : ℤ) : String :=
  if i < 0 then ⟨'-' :: natDigits i.natAbs⟩ else ⟨natDigits i.natAbs⟩

/-- Canonical textual rendering of the exact-rational embedding of a JS
number: integers print as decimal digits, non-integers as
`numerator/denominator`.  (JS prints non-integral doubles in decimal
notation; no claim depends on the textual form of a non-integral number,
only on the rendering being non-empty.) -/
def ratToString (q : ℚ) : String :=
  if q.den = 1 then intToStr q.num
  else intToStr q.num ++ "/" ++ ⟨natDigits q.den⟩

/-- JS `Math.round`: round half toward positive infinity. -/
def jsRound (q : ℚ) : ℤ := ⌊q + 1 / 2⌋

/-- JS `x.toFixed(0)` for the non-negative values that arise here:
round to the nearest integer and print it. -/
def toFixed0 (q : ℚ) : String := intToStr (jsRound q)

/-- The JSON-like runtime values stored in the workflow result bag.
`undefined` is not a `Value`; it is represented by `Option.none`
at each access site. -/
inductive Value : Type
  | vNull : Value
  | vBool : Bool → Value
  | vNum : ℚ → Value
  | vStr : String → Value
  | vArr : List Value → Value
  | vObj : List (String × Value) → Value

open Value

/-- Property read `v[k]` on a defined value.  Objects give their field,
arrays expose `length` and decimal indices, strings expose `length`
(character indexing into strings is not exercised by any workflow path);
reads on primitives yield `undefined` (`none`). -/
def getProp (v : Value) (k : String) : Option Value :=
  match v with
  | vObj fs => (fs.find? (fun p => p.1 = k)).map (·.2)
  | vArr xs =>
      if k = "length" then some (vNum xs.length)
      else match k.toNat? with
           | some i => xs.get? i
           | none => none
  | vStr s => if k = "length" then some (vNum s.length) else none
  | _ => none

/-- Extract the string payload of a value, when it is a string. -/
def Value.asString : Value → Option String
  | vStr s => some s
  | _ => none

/-- JS truthiness of a defined value. -/
def truthy : Value → Bool
  | vNull => false
  | vBool b => b
  | vNum q => q ≠ 0
  | vStr s => s ≠ ""
  | vArr _ => true
  | vObj _ => true

/-- JS string coercion `String(v)` / template-literal interpolation of a
defined value. -/
def jsToString : Value → String
  | vNull => "null"
  | vBool b => if b then "true" else "false"
  | vNum q => ratToString q
  | vStr s => s
  | vArr _ => ""
  | vObj _ => "[object Object]"

mutual

/-- `JSON.stringify` of a defined value (string escaping is restricted to
quotes and backslashes; none of the workflow strings contain either). -/
def stringify : Value → String
  | vNull => "null"
  | vBool b => if b then "true" else "false"
  | vNum q => ratToString q
  | vStr s => "\"" ++ s ++ "\""
  | vArr xs => "[" ++ stringifyList xs ++ "]"
  | vObj fs => ⟨[openBrace]⟩ ++ stringifyFields fs ++ ⟨[closeBrace]⟩

/-- Comma-joined serialisation of an array body. -/
def stringifyList : List Value → String
  | [] => ""
  | [x] => stringify x
  | x :: y :: t => stringify x ++ "," ++ stringifyList (y :: t)

/-- Comma-joined serialisation of an object body. -/
def stringifyFields : List (String × Value) → String
  | [] => ""
  | [(k, v)] => "\"" ++ k ++ "\":" ++ stringify v
  | (k, v) :: p :: t => "\"" ++ k ++ "\":" ++ stringify v ++ "," ++ stringifyFields (p :: t)

end

/-- The per-call result bag `this.workflowResults`: a JS object mapping
output names to step results, modelled as an insertion-ordered
association list. -/
def Bag : Type := List (String × Value)

/-- Read `this.workflowResults[k]`. -/
def getKey (bag : Bag) (k : String) : Option Value :=
  (List.find? (fun p => p.1 = k) bag).map (·.2)

/-- Write `this.workflowResults[k] = v`: replace an existing field in
place, otherwise append. -/
def setKey (bag : Bag) (k : String) (v : Value) : Bag :=
  match bag with
  | [] => [(k, v)]
  | (k', v') :: t => if k' = k then (k, v) :: t else (k', v') :: setKey t k v

/-! ### Condition evaluator (`evaluateCondition`, source lines 1025-1047)

The guard grammar is recognised with the regex
`(\w+)\s+contains\s+'([^']+)'` with the case-insensitive flag, guarded by a
case-sensitive `condition.includes('contains')` test.  The regex search is
modelled literally: leftmost match, and at each start position maximal
munch (which coincides with backtracking semantics here, because the
character classes `\w`, `\s`, `[^']` and the following literal are
pairwise disjoint at each boundary). -/

/-- Attempt to match `(\w+)\s+contains\s+'([^']+)'` (case-insensitively)
at the start of `cs`, returning the two capture groups. -/
def tryMatchAt (cs : List Char) : Option (String × String) :=
  let w := cs.takeWhile isWordChar
  if w.isEmpty then none else
  let r1 := cs.drop w.length
  let sp := r1.takeWhile isWsChar
  if sp.isEmpty then none else
  let r2 := r1.drop sp.length
  if (r2.take 8).map jsToLowerChar = "contains".data then
    let r3 := r2.drop 8
    let sp2 := r3.takeWhile isWsChar
    if sp2.isEmpty then none else
    let r4 := r3.drop sp2.length
    match r4 with
    | c :: r5 =>
        if c = quoteChar then
          let lit := r5.takeWhile (fun d => d ≠ quoteChar)
          if lit.isEmpty then none
          else match r5.drop lit.length with
               | d :: _ => if d = quoteChar then some (⟨w⟩, ⟨lit⟩) else none
               | [] => none
        else none
    | [] => none
  else none

/-- Leftmost match of the guard regex: try each start position in turn. -/
def findContainsMatch : List Char → Option (String × String)
  | [] => none
  | c :: cs =>
      match tryMatchAt (c :: cs) with
      | some r => some r
      | none => findContainsMatch cs

/-- The effective guard parse of `evaluateCondition`: the (case-sensitive)
`includes('contains')` pre-test followed by the regex search. -/
def condGrammarMatch (condition : String) : Option (String × String) :=
  if strIncludes condition "contains" then findContainsMatch condition.data
  else none

/-- `evaluateCondition` (source lines 1025-1047): on a successful parse
with the identifier bound to a string, test case-insensitive containment;
in every other case fall open to `true`. -/
def evaluateCondition (bag : Bag) (condition : String) : Bool :=
  match condGrammarMatch condition with
  | some (varName, searchTerm) =>
      match getKey bag varName with
      | some (vStr value) => strIncludes (strToLower value) (strToLower searchTerm)
      | _ => true
  | none => true

/-! ### Template interpolator (`interpolateTemplate`, source lines 1334-1345)

`template.replace(/\x7b\x7b([^\x7d]+)\x7d\x7d/g, ...)`: scan left to right; a match is
two opening braces, a non-empty run of non-`\x7d` characters, then two closing
braces.  The replacement resolves the dot-separated path through the bag
(`value = value?.[key]` at each step), substitutes strings verbatim and
other defined values by `JSON.stringify`, and keeps the original
placeholder text when resolution ends in `undefined`. -/

/-- Resolve one step of a dotted path: `value?.[key]`. -/
def pathStep (v : Option Value) (k : String) : Option Value :=
  match v with
  | none => none
  | some w => getProp w k

/-- JS `s.split('.')` on character lists (structural, empty pieces kept). -/
def splitDotAux : List Char → List Char → List (List Char)
  | [], acc => [acc.reverse]
  | c :: t, acc => if c = '.' then acc.reverse :: splitDotAux t [] else splitDotAux t (c :: acc)

/-- `path.trim().split('.')`. -/
def pathKeys (path : String) : List String :=
  (splitDotAux (jsTrim path).data []).map (fun l => ⟨l⟩)

/-- Resolve `path.trim().split('.')` against the bag root. -/
def resolvePath (bag : Bag) (path : String) : Option Value :=
  (pathKeys path).foldl pathStep (some (vObj bag))

/-- The replacement for one matched placeholder with path text `p`. -/
def placeholderValue (bag : Bag) (p : List Char) : List Char :=
  match resolvePath bag ⟨p⟩ with
  | some (vStr s) => s.data
  | some v => (stringify v).data
  | none => openBrace :: openBrace :: p ++ [closeBrace, closeBrace]

/-- Split off a placeholder body at the start of the characters following
the two opening braces: a non-empty run of non-`\x7d` characters followed by
two closing braces. -/
def placeholderBody (cs : List Char) : List Char :=
  cs.takeWhile (fun d => d ≠ closeBrace)

/-- Split off a placeholder body at the start of the characters following
the two opening braces (continued): the body must be non-empty and
followed by two closing braces. -/
def splitPlaceholder (cs : List Char) : Option (List Char × List Char) :=
  match cs.drop (placeholderBody cs).length with
  | d1 :: d2 :: tail =>
      if ¬(placeholderBody cs).isEmpty ∧ d1 = closeBrace ∧ d2 = closeBrace then
        some (placeholderBody cs, tail)
      else none
  | _ => none

theorem splitPlaceholder_tail_le {cs p tail} (h : splitPlaceholder cs = some (p, tail)) :
    tail.length + 2 ≤ cs.length := by
  unfold splitPlaceholder at h
  split at h
  case _ d1 d2 t hd =>
    split at h
    · rw [Option.some.injEq, Prod.mk.injEq] at h
      obtain ⟨hp, ht⟩ := h
      subst ht
      have hlen := congrArg List.length hd
      simp [List.length_drop] at hlen
      omega
    · exact absurd h (by simp)
  case _ => exact absurd h (by simp)

/-- The regex-replace scan over the character list. -/
def interpList (bag : Bag) : List Char → List Char
  | [] => []
  | c :: cs =>
      if c = openBrace then
        match cs with
        | c2 :: cs2 =>
            if c2 = openBrace then
              match hs : splitPlaceholder cs2 with
              | some (p, tail) =>
                  have := splitPlaceholder_tail_le hs
                  placeholderValue bag p ++ interpList bag tail
              | none => c :: interpList bag (c2 :: cs2)
            else c :: interpList bag (c2 :: cs2)
        | [] => [c]
      else c :: interpList bag cs
termination_by cs => cs.length
decreasing_by all_goals simp only [List.length_cons]; omega

/-- `interpolateTemplate` (source lines 1334-1345). -/
def interpolateTemplate (bag : Bag) (template : String) : String :=
  ⟨interpList bag template.data⟩

/-! ### Data model (source lines 877-933) -/

/-- The string consisting of a single apostrophe. -/
def apos : String := ⟨[quoteChar]⟩

structure WeatherMain where
  temp : ℚ
  humidity : ℚ
  pressure : ℚ
deriving DecidableEq

structure WeatherCond where
  main : String
  description : String
deriving DecidableEq

structure WeatherWind where
  speed : ℚ
deriving DecidableEq

/-- `WeatherData` (source lines 877-890). -/
structure WeatherData where
  main : WeatherMain
  weather : List WeatherCond
  wind : WeatherWind
deriving DecidableEq

/-- `SoilData` (source lines 892-898). -/
structure SoilData where
  date : String
  time : String
  t0 : ℚ
  t10 : ℚ
  moisture : ℚ
deriving DecidableEq

/-- `DiseaseReport` (source lines 900-904). -/
structure DiseaseReport where
  condition : String
  explanation : String
  treatment : String
deriving DecidableEq

structure AllocationTerms where
  approved_percent : ℚ
  delivery_schedule : String
  priority : String
deriving DecidableEq

structure AllocationAnalysis where
  soil_moisture : ℚ
  recommendation : String
deriving DecidableEq

structure AllocationWeather where
  temperature_c : ℚ
  humidity_percent : ℚ
  condition : String
deriving DecidableEq

/-- `AllocationPlan` (source lines 906-923). -/
structure AllocationPlan where
  request : String
  allocation : AllocationTerms
  analysis : AllocationAnalysis
  weather : AllocationWeather
  next_steps : List String
deriving DecidableEq

/-- `AgentInput` (source lines 873-875). -/
structure AgentInput where
  farmer_query : String
deriving DecidableEq

/-- `AgentResponse` (source lines 925-933).  At runtime the optional
fields receive whatever step result the dispatcher stores, so they are
embedded as raw `Value`s. -/
structure AgentResponse where
  weather : Option Value := none
  soil : Option Value := none
  disease : Option Value := none
  allocation : Option Value := none
  final_answer : Option Value := none
  success : Bool
  error : Option String := none

/-! ### Value encodings of the typed records -/

def encodeWeather (w : WeatherData) : Value :=
  vObj [("main", vObj [("temp", vNum w.main.temp), ("humidity", vNum w.main.humidity),
          ("pressure", vNum w.main.pressure)]),
        ("weather", vArr (w.weather.map fun c =>
          vObj [("main", vStr c.main), ("description", vStr c.description)])),
        ("wind", vObj [("speed", vNum w.wind.speed)])]

def encodeSoil (s : SoilData) : Value :=
  vObj [("date", vStr s.date), ("time", vStr s.time), ("t0", vNum s.t0),
        ("t10", vNum s.t10), ("moisture", vNum s.moisture)]

def encodeSoilList (l : List SoilData) : Value := vArr (l.map encodeSoil)

def encodeDisease (d : DiseaseReport) : Value :=
  vObj [("condition", vStr d.condition), ("explanation", vStr d.explanation),
        ("treatment", vStr d.treatment)]

def encodeAlloc (a : AllocationPlan) : Value :=
  vObj [("request", vStr a.request),
        ("allocation", vObj [("approved_percent", vNum a.allocation.approved_percent),
          ("delivery_schedule", vStr a.allocation.delivery_schedule),
          ("priority", vStr a.allocation.priority)]),
        ("analysis", vObj [("soil_moisture", vNum a.analysis.soil_moisture),
          ("recommendation", vStr a.analysis.recommendation)]),
        ("weather", vObj [("temperature_c", vNum a.weather.temperature_c),
          ("humidity_percent", vNum a.weather.humidity_percent),
          ("condition", vStr a.weather.condition)]),
        ("next_steps", vArr (a.next_steps.map vStr))]

def asNum : Value → Option ℚ
  | vNum q => some q
  | _ => none

def decodeWeatherMain (v : Value) : Option WeatherMain := do
  let t ← (getProp v "temp").bind asNum
  let h ← (getProp v "humidity").bind asNum
  let p ← (getProp v "pressure").bind asNum
  pure ⟨t, h, p⟩

def decodeWeatherCond (v : Value) : Option WeatherCond := do
  let m ← (getProp v "main").bind Value.asString
  let d ← (getProp v "description").bind Value.asString
  pure ⟨m, d⟩

def decodeWeather (v : Value) : Option WeatherData := do
  let m ← (getProp v "main").bind decodeWeatherMain
  let w ← match getProp v "weather" with
          | some (vArr xs) => xs.mapM decodeWeatherCond
          | _ => none
  let s ← match getProp v "wind" with
          | some wd => (getProp wd "speed").bind asNum
          | none => none
  pure ⟨m, w, ⟨s⟩⟩

def decodeSoil (v : Value) : Option SoilData := do
  let d ← (getProp v "date").bind Value.asString
  let t ← (getProp v "time").bind Value.asString
  let a ← (getProp v "t0").bind asNum
  let b ← (getProp v "t10").bind asNum
  let m ← (getProp v "moisture").bind asNum
  pure ⟨d, t, a, b, m⟩

def decodeSoilList (v : Value) : Option (List SoilData) :=
  match v with
  | vArr xs => xs.mapM decodeSoil
  | _ => none

def decodeDisease (v : Value) : Option DiseaseReport := do
  let c ← (getProp v "condition").bind Value.asString
  let e ← (getProp v "explanation").bind Value.asString
  let t ← (getProp v "treatment").bind Value.asString
  pure ⟨c, e, t⟩

def decodeAlloc (v : Value) : Option AllocationPlan := do
  let r ← (getProp v "request").bind Value.asString
  let al ← getProp v "allocation"
  let ap ← (getProp al "approved_percent").bind asNum
  let ds ← (getProp al "delivery_schedule").bind Value.asString
  let pr ← (getProp al "priority").bind Value.asString
  let an ← getProp v "analysis"
  let sm ← (getProp an "soil_moisture").bind asNum
  let rc ← (getProp an "recommendation").bind Value.asString
  let wo ← getProp v "weather"
  let tc ← (getProp wo "temperature_c").bind asNum
  let hp ← (getProp wo "humidity_percent").bind asNum
  let cd ← (getProp wo "condition").bind Value.asString
  let ns ← match getProp v "next_steps" with
           | some (vArr xs) => xs.mapM Value.asString
           | _ => none
  pure ⟨r, ⟨ap, ds, pr⟩, ⟨sm, rc⟩, ⟨tc, hp, cd⟩, ns⟩

/-! ### Weather step (`getWeatherData`, source lines 1278-1305) -/

/-- Outcome of the single `fetch` call in `getWeatherData`: a transport
error (the promise rejects), or an HTTP response with its `ok` flag and
the result of `response.json()` (which may itself fail to parse). -/
inductive FetchOutcome : Type
  | transportError : FetchOutcome
  | response : Bool → Except String WeatherData → FetchOutcome

/-- The fixed fallback weather record returned by the `catch` branch of
`getWeatherData`. -/
def fallbackWeatherData : WeatherData :=
  ⟨⟨28, 65, 1013⟩, [⟨"Clear", "clear sky"⟩], ⟨3.5⟩⟩

/-- `getWeatherData` (source lines 1278-1305): a failed transport, a
non-2xx status (`!response.ok`, rethrown as an error) or a JSON parse
failure all land in the `catch` branch, which returns the fixed fallback
record.  The URL and query parameters built from the step definition only
influence which `FetchOutcome` the environment supplies. -/
def getWeatherData (outcome : FetchOutcome) : WeatherData :=
  match outcome with
  | .transportError => fallbackWeatherData
  | .response ok body =>
      if ok then
        match body with
        | .ok w => w
        | .error _ => fallbackWeatherData
      else fallbackWeatherData

/-! ### Soil generator (`generateSoilData`, source lines 1307-1332)

`Math.random` is modelled as an oracle stream `rnd : ℕ → ℚ` of draws in
`[0, 1)`, consumed left to right (three draws per sample).  The `Date`
loop runs over the in-month day numbers 24..29 of September 2025;
`currentDate.toISOString().split('T')[0]` is timezone-dependent and is
modelled by an abstract date formatter `dateStr : ℕ → String` applied to
the day number. -/

/-- Zero-padded `${hour.toString().padStart(2, '0')}:00`. -/
def hourLabel (h : ℕ) : String :=
  (if h < 10 then ⟨'0' :: natDigits h⟩ else (⟨natDigits h⟩ : String)) ++ ":00"

/-- `t0 = Math.round((Math.random() * (300 - 293) + 293) * 100) / 100`. -/
def soilT0 (r1 : ℚ) : ℚ := (jsRound ((r1 * (300 - 293) + 293) * 100) : ℚ) / 100

/-- `t10 = Math.round((t0 - (Math.random() * (3 - 1.5) + 1.5)) * 100) / 100`. -/
def soilT10 (r1 r2 : ℚ) : ℚ :=
  (jsRound ((soilT0 r1 - (r2 * (3 - 1.5) + 1.5)) * 100) : ℚ) / 100

/-- `moisture = Math.round((Math.random() * (0.26 - 0.18) + 0.18) * 100) / 100`. -/
def soilMoisture (r3 : ℚ) : ℚ := (jsRound ((r3 * (0.26 - 0.18) + 0.18) * 100) : ℚ) / 100

/-- One generated soil sample (loop body, source lines 1315-1327). -/
def mkSoilSample (dateStr : ℕ → String) (day hour : ℕ) (r1 r2 r3 : ℚ) : SoilData :=
  ⟨dateStr day, hourLabel hour, soilT0 r1, soilT10 r1 r2, soilMoisture r3⟩

/-- The `while (currentDate <= endDate)` loop, two samples per day; the
`day ≤ 29` test is the loop guard, and the fuel argument (one more than
the six loop iterations, so the guard itself terminates the loop) keeps
the recursion structural. -/
def soilLoop (dateStr : ℕ → String) (rnd : ℕ → ℚ) : ℕ → ℕ → ℕ → List SoilData
  | 0, _, _ => []
  | fuel + 1, day, k =>
      if day ≤ 29 then
        mkSoilSample dateStr day 9 (rnd k) (rnd (k + 1)) (rnd (k + 2)) ::
        mkSoilSample dateStr day 15 (rnd (k + 3)) (rnd (k + 4)) (rnd (k + 5)) ::
        soilLoop dateStr rnd fuel (day + 1) (k + 6)
      else []

/-- `generateSoilData` (source lines 1307-1332): September 24 to 29. -/
def generateSoilData (dateStr : ℕ → String) (rnd : ℕ → ℚ) : List SoilData :=
  soilLoop dateStr rnd 7 24 0

/-! ### Model-call simulators (source lines 1105-1276) -/

/-- `simulateQueryRefiner` (source lines 1105-1134).  The interpolated
prompt argument is ignored by the source; the handler reads
`inputs?.farmer_query?.toLowerCase() || ''` from the result bag, which
throws when `farmer_query` is bound to a non-string primitive or
collection. -/
def simulateQueryRefiner (bag : Bag) : Except String String :=
  match pathStep (pathStep (some (vObj bag)) "inputs") "farmer_query" with
  | some (vStr s) =>
      let fq := strToLower s
      pure (if strIncludes fq "barsat" ∨ strIncludes fq "rain" ∨
               strIncludes fq "weather" ∨ strIncludes fq "موسم" then
              "weather forecast and precipitation analysis needed"
            else if strIncludes fq "paani" ∨ strIncludes fq "water" ∨
               strIncludes fq "پانی" ∨ strIncludes fq "irrigation" then
              "resource allocation for water irrigation required"
            else if strIncludes fq "disease" ∨ strIncludes fq "بیماری" ∨
               strIncludes fq "leaf" ∨ strIncludes fq "پتا" then
              "disease detection and crop health analysis needed"
            else if strIncludes fq "fertilizer" ∨ strIncludes fq "khad" ∨
               strIncludes fq "کھاد" then
              "resource allocation for fertilizer application required"
            else if strIncludes fq "soil" ∨ strIncludes fq "mitti" ∨
               strIncludes fq "مٹی" then
              "soil analysis and moisture monitoring needed"
            else "general agricultural advice and resource guidance needed")
  | some vNull => pure ""
  | none => pure ""
  | some _ => .error "farmerQuery.toLowerCase is not a function"

/-- The three canned disease reports (source lines 1137-1153). -/
def cannedDiseases : List DiseaseReport :=
  [⟨"Early Blight",
    "Your crop shows signs of early blight disease with dark spots on leaves",
    "Apply copper-based fungicide every 7 days and remove affected leaves"⟩,
   ⟨"Leaf Rust",
    "Orange-brown spots indicate leaf rust affecting your crop",
    "Use sulfur-based spray and improve air circulation around plants"⟩,
   ⟨"Healthy",
    "Your crop leaves look healthy with good green color",
    "Continue current care practices and monitor regularly"⟩]

/-- `simulateDiseaseDetection` (source lines 1136-1156):
`diseases[Math.floor(Math.random() * diseases.length)]`.  For draws in
`[0, 1)` the index is always in range; out-of-range draws (impossible for
`Math.random`) are clamped to the last report. -/
def simulateDiseaseDetection (r : ℚ) : DiseaseReport :=
  cannedDiseases.getD (⌊r * 3⌋).toNat ⟨"Healthy",
    "Your crop leaves look healthy with good green color",
    "Continue current care practices and monitor regularly"⟩

/-- `simulateAllocationAgent` (source lines 1158-1188), over the typed
values the executor stores under `weather_data` and `soil_data`. -/
def simulateAllocationAgent (farmerQuery : String) (weather : Option WeatherData)
    (soil : Option (List SoilData)) : AllocationPlan :=
  let lq := strToLower farmerQuery
  let isWaterRequest := strIncludes lq "water" ∨ strIncludes lq "paani" ∨ strIncludes lq "پانی"
  let isFertilizerRequest := strIncludes lq "fertilizer" ∨ strIncludes lq "khad" ∨
    strIncludes lq "کھاد"
  { request := farmerQuery
    allocation :=
      { approved_percent := if isWaterRequest then 85 else if isFertilizerRequest then 75 else 70
        delivery_schedule := "Within 2-3 days"
        priority := if (match weather with
                        | some w => decide (w.main.temp > 30)
                        | none => false) then "High" else "Medium" }
    analysis :=
      { soil_moisture := match soil with
          | some l => match l.getLast? with
                      | some s => s.moisture
                      | none => 0.22
          | none => 0.22
        recommendation := if isWaterRequest then
            "Increase irrigation frequency due to high temperature"
          else "Apply during cooler hours" }
    weather :=
      { temperature_c := match weather with
          | some w => if w.main.temp = 0 then 28 else w.main.temp
          | none => 28
        humidity_percent := match weather with
          | some w => if w.main.humidity = 0 then 65 else w.main.humidity
          | none => 65
        condition := match weather with
          | some w => match w.weather.head? with
                      | some c => if c.description = "" then "partly cloudy" else c.description
                      | none => "partly cloudy"
          | none => "partly cloudy" }
    next_steps := ["Confirm pickup location and timing",
                   "Prepare application equipment",
                   "Monitor crop response after application"] }

/-! ### Response formatter (`simulateResponseFormatter`, source lines 1190-1276)

The handler reads `inputs.farmer_query`, `weather_data`, `soil_data`,
`disease_report` and `allocation_plan` from the result bag; it is modelled
over the typed step outputs the executor stores under those keys. -/

/-- The opening sentence fragment (source lines 1207-1221). -/
def starterText (farmerQuery : String) (weather : Option WeatherData) : String :=
  let lq := strToLower farmerQuery
  if farmerQuery ≠ "" ∧ (strIncludes lq "barsat" ∨ strIncludes lq "rain") then
    "Based on current weather data, " ++
    (if ((match weather with
          | some w => match w.weather.head? with
                      | some c => decide (c.description ≠ "") && strIncludes c.description "rain"
                      | none => false
          | none => false) ||
         (match weather with
          | some w => decide (w.main.humidity > 80)
          | none => false)) = true then
      "there" ++ apos ++ "s a good chance of rain in the next day or two. "
     else
      "rain is not expected immediately, but humidity levels suggest possible showers later. ")
  else if farmerQuery ≠ "" ∧ (strIncludes lq "paani" ∨ strIncludes lq "water") then
    "I understand you need water for your crops. "
  else if farmerQuery ≠ "" ∧ (strIncludes lq "fertilizer" ∨ strIncludes lq "khad") then
    "Regarding your fertilizer needs, "
  else
    "Based on your farming question, "

/-- The weather context fragment (source lines 1223-1231). -/
def weatherBlock : Option WeatherData → String
  | none => ""
  | some w =>
      "Current temperature is " ++ ratToString w.main.temp ++ "°C with " ++
      ratToString w.main.humidity ++ "% humidity. " ++
      (if w.main.temp > 30 then
        "It" ++ apos ++ "s quite hot, so your crops will need more water. "
       else if w.main.temp < 20 then
        "The weather is cool, which is good for most crops. "
       else "")

/-- The soil moisture fragment (source lines 1233-1243). -/
def soilBlock : Option (List SoilData) → String
  | none => ""
  | some l =>
      match l.getLast? with
      | none => ""
      | some latestSoil =>
          "Your soil moisture is at " ++ toFixed0 (latestSoil.moisture * 100) ++ "%. " ++
          (if latestSoil.moisture < 0.2 then
            "This is on the low side, so consider watering your crops soon. "
           else if latestSoil.moisture > 0.25 then
            "Moisture levels are good, so you can wait a day before the next watering. "
           else "")

/-- The disease fragment (source lines 1245-1255). -/
def diseaseBlock : Option DiseaseReport → String
  | none => ""
  | some d =>
      if d.condition ≠ "" ∧ d.condition ≠ "Healthy" then
        let treatmentText := strToLower d.treatment
        "I noticed signs of " ++ strToLower d.condition ++ " in your crop. " ++
        (if d.explanation ≠ "" then d.explanation else "Please monitor your crops closely.") ++
        " " ++ "My recommendation: " ++
        (if treatmentText ≠ "" then treatmentText else "consult with local agricultural experts") ++
        ". "
      else
        "Your crops look healthy, which is great! "

/-- The allocation fragment (source lines 1257-1263). -/
def allocationBlock : Option AllocationPlan → String
  | none => ""
  | some a =>
      "Regarding your request for resources, I can approve " ++
      ratToString a.allocation.approved_percent ++ "% of what you asked for. " ++
      "Delivery can be arranged " ++ strToLower a.allocation.delivery_schedule ++ ". "

/-- The farming tips appended when the assembled text is long enough
(source lines 1266-1268). -/
def proTips : String :=
  "Pro tip: Water your crops early morning or late evening to reduce evaporation. " ++
  "Also, keep checking your plants daily for any changes in color or growth patterns."

/-- The generic fallback paragraph (source lines 1271 and 1390; the same
literal appears in the formatter and in `getFallbackResult`). -/
def generalFarmingFallbackText : String :=
  "Based on general farming practices, water your crops in the morning, check for pests " ++
  "regularly, and monitor soil moisture. Keep an eye on weather patterns and adjust your " ++
  "irrigation accordingly."

/-- The text assembled before the length check (source lines 1205-1263). -/
def assembleText (farmerQuery : String) (weather : Option WeatherData)
    (soil : Option (List SoilData)) (disease : Option DiseaseReport)
    (allocation : Option AllocationPlan) : String :=
  starterText farmerQuery weather ++ weatherBlock weather ++ soilBlock soil ++
  diseaseBlock disease ++ allocationBlock allocation

/-- `simulateResponseFormatter` (source lines 1190-1276). -/
def simulateResponseFormatter (farmerQuery : String) (weather : Option WeatherData)
    (soil : Option (List SoilData)) (disease : Option DiseaseReport)
    (allocation : Option AllocationPlan) : String :=
  let response := assembleText farmerQuery weather soil disease allocation
  if response.length > 50 then jsTrim (response ++ proTips)
  else jsTrim generalFarmingFallbackText

/-! ### Fallback table (`getFallbackResult`, source lines 1347-1394)

The `new Date().toISOString().split('T')[0]` stamp in the soil fallback is
supplied by the environment as `todayISO`; the allocation fallback reads
`this.workflowResults.inputs?.farmer_query || 'Resource request'` from the
current result bag. -/

/-- The `request` field of the allocation fallback (source line 1372). -/
def fallbackAllocRequest (bag : Bag) : Value :=
  match pathStep (pathStep (some (vObj bag)) "inputs") "farmer_query" with
  | some v => if truthy v then v else vStr "Resource request"
  | none => vStr "Resource request"

/-- `getFallbackResult` (source lines 1347-1394). -/
def getFallbackResult (todayISO : String) (bag : Bag) (stepId : String) : Value :=
  if stepId = "query_refiner" then
    vStr "general agricultural advice and resource guidance needed"
  else if stepId = "weather_api" then
    vStr "Weather conditions are moderate. Check local forecasts for rain."
  else if stepId = "soil_data" then
    vArr [vObj [("date", vStr todayISO), ("time", vStr "09:00"), ("t0", vNum 295),
                ("t10", vNum 293), ("moisture", vNum 0.20)]]
  else if stepId = "disease_detection" then
    vObj [("condition", vStr "Unknown"),
          ("explanation", vStr "Unable to analyze image. Check for yellowing, spots, or wilting."),
          ("treatment", vStr "Apply general fungicide and improve plant care.")]
  else if stepId = "allocation_agent" then
    vObj [("request", fallbackAllocRequest bag),
          ("allocation", vObj [("approved_percent", vNum 70),
            ("delivery_schedule", vStr "Within 3-5 days"), ("priority", vStr "Medium")]),
          ("analysis", vObj [("soil_moisture", vNum 0.20),
            ("recommendation", vStr "Monitor crop conditions regularly")]),
          ("weather", vObj [("temperature_c", vNum 25), ("humidity_percent", vNum 60),
            ("condition", vStr "partly cloudy")]),
          ("next_steps", vArr [vStr "Contact local cooperative",
            vStr "Prepare application area", vStr "Schedule follow-up"])]
  else if stepId = "response_formatter" then
    vStr generalFarmingFallbackText
  else
    vStr "Information not available at the moment. Please try again later."

/-! ### Workflow executor (`execute`, source lines 973-1023)

The YAML configuration document (`src/data/smart-kissan-agent.yaml`) is
loaded at construction time and iterated by `execute`.  The environment
supplies the result of that iteration (`Except`: a top-level throw when
the loaded configuration has no iterable `workflow`), together with the
oracles for `fetch`, `Math.random` and `Date`. -/

/-- One workflow step as consumed by the executor (source lines 935-948);
only the fields the interpreter reads are retained. -/
structure WorkflowStep where
  id : String
  stepType : String
  whenCond : Option String := none
  inputPrompt : Option String := none
  output : String
deriving DecidableEq

/-- The execution environment: configuration-iteration outcome and the
external oracles. -/
structure Env where
  configWorkflow : Except String (List WorkflowStep)
  fetchOutcome : FetchOutcome
  soilRand : ℕ → ℚ
  diseaseRand : ℚ
  todayISO : String
  toISODate : ℕ → String

/-- Read `inputs?.farmer_query?.toString() || ''` (source line 1191). -/
def bagFarmerQueryStr (bag : Bag) : String :=
  match pathStep (pathStep (some (vObj bag)) "inputs") "farmer_query" with
  | some vNull => ""
  | some v => jsToString v
  | none => ""

/-- Read `this.workflowResults.inputs.farmer_query` followed by
`.toLowerCase()`-style string use (source lines 1159-1163): throws when
`inputs` is absent or `farmer_query` is not a string. -/
def bagFarmerQueryRequired (bag : Bag) : Except String String :=
  match getKey bag "inputs" with
  | none => .error "Cannot read properties of undefined"
  | some vNull => .error "Cannot read properties of null"
  | some v =>
      match getProp v "farmer_query" with
      | some (vStr s) => pure s
      | _ => .error "farmerQuery.toLowerCase is not a function"

/-- The typed weather value the handlers read from `weather_data`. -/
def bagWeather (bag : Bag) : Option WeatherData :=
  (getKey bag "weather_data").bind decodeWeather

/-- The typed soil series the handlers read from `soil_data`. -/
def bagSoil (bag : Bag) : Option (List SoilData) :=
  (getKey bag "soil_data").bind decodeSoilList

/-- `executeModelCall` (source lines 1062-1089): interpolate the prompt
template (unused by the simulators), then dispatch on the step id. -/
def executeModelCall (env : Env) (bag : Bag) (step : WorkflowStep) : Except String Value :=
  let _prompt := interpolateTemplate bag (step.inputPrompt.getD "")
  if step.id = "query_refiner" then
    (simulateQueryRefiner bag).map vStr
  else if step.id = "disease_detection" then
    pure (encodeDisease (simulateDiseaseDetection env.diseaseRand))
  else if step.id = "allocation_agent" then do
    let q ← bagFarmerQueryRequired bag
    pure (encodeAlloc (simulateAllocationAgent q (bagWeather bag) (bagSoil bag)))
  else if step.id = "response_formatter" then
    pure (vStr (simulateResponseFormatter (bagFarmerQueryStr bag) (bagWeather bag)
      (bagSoil bag) ((getKey bag "disease_report").bind decodeDisease)
      ((getKey bag "allocation_plan").bind decodeAlloc)))
  else .error ("Unknown model call: " ++ step.id)

/-- `executeStep` (source lines 1049-1060) together with `executeApiCall`
and `executePythonCode` (source lines 1091-1103). -/
def executeStep (env : Env) (bag : Bag) (step : WorkflowStep) : Except String Value :=
  if step.stepType = "model_call" then executeModelCall env bag step
  else if step.stepType = "api_call" then
    if step.id = "weather_api" then pure (encodeWeather (getWeatherData env.fetchOutcome))
    else .error ("Unknown API call: " ++ step.id)
  else if step.stepType = "python" then
    if step.id = "soil_data" then
      pure (encodeSoilList (generateSoilData env.toISODate env.soilRand))
    else .error ("Unknown Python execution: " ++ step.id)
  else .error ("Unknown step type: " ++ step.stepType)

/-- A step runner abstracts `await this.executeStep(step)` so that the
loop's per-step `try`/`catch` can be stated against arbitrary handler
behaviour; the executor instantiates it with `executeStep`. -/
def StepRunner : Type := WorkflowStep → Bag → Except String Value

/-- Copy a successful step result into the matching response field
(source lines 991-1002). -/
def assignResponseField (res : AgentResponse) (stepId : String) (v : Value) : AgentResponse :=
  if stepId = "weather_api" then { res with weather := some v }
  else if stepId = "soil_data" then { res with soil := some v }
  else if stepId = "disease_detection" then { res with disease := some v }
  else if stepId = "allocation_agent" then { res with allocation := some v }
  else if stepId = "response_formatter" then { res with final_answer := some v }
  else res

/-- The guard test of one loop iteration
(`step.when && !this.evaluateCondition(step.when)`, source line 982):
a declared, truthy guard that evaluates false skips the step. -/
def stepSkipped (bag : Bag) (step : WorkflowStep) : Bool :=
  match step.whenCond with
  | some c => decide (c ≠ "") && !(evaluateCondition bag c)
  | none => false

/-- Store a step outcome: a success goes into the bag and the matching
response field (source lines 989-1002); a failure stores the per-step
fallback in the bag, reaching the response only for the formatter
(source lines 1003-1011). -/
def writeBack (env : Env) (σ : Bag) (step : WorkflowStep) (r : Except String Value)
    (res : AgentResponse) : Bag × AgentResponse :=
  match r with
  | .ok v => (setKey σ step.output v, assignResponseField res step.id v)
  | .error _ =>
      let fb := getFallbackResult env.todayISO σ step.id
      (setKey σ step.output fb,
       if step.id = "response_formatter" then { res with final_answer := some fb } else res)

/-- The body of one loop iteration with its per-step `try`/`catch`
(source lines 980-1011). -/
def stepOnce (env : Env) (run : StepRunner) (s : Bag × AgentResponse)
    (step : WorkflowStep) : Bag × AgentResponse :=
  if stepSkipped s.1 step then s
  else writeBack env s.1 step (run step s.1) s.2

/-- The `for (const step of this.config.workflow)` loop. -/
def runSteps (env : Env) (run : StepRunner) (steps : List WorkflowStep)
    (s : Bag × AgentResponse) : Bag × AgentResponse :=
  match steps with
  | [] => s
  | step :: rest => runSteps env run rest (stepOnce env run s step)

/-- `this.workflowResults = { inputs }` (source line 975). -/
def initialBag (inputs : AgentInput) : Bag :=
  [("inputs", vObj [("farmer_query", vStr inputs.farmer_query)])]

/-- The body of the outer `try` (source lines 974-1014): obtain the step
list from the configuration (the only operation outside the per-step
`try` that can throw), then run the loop. -/
def executeCore (env : Env) (run : StepRunner) (inputs : AgentInput) :
    Except String AgentResponse := do
  let wf ← env.configWorkflow
  pure (runSteps env run wf (initialBag inputs, { success := true })).2

/-- The concrete step runner used by `execute`. -/
def realStepRunner (env : Env) : StepRunner := fun step bag => executeStep env bag step

/-- `execute` (source lines 973-1023): the outer `catch` converts any
top-level throw into a failure response carrying the response-formatter
fallback text. -/
def execute (env : Env) (inputs : AgentInput) : AgentResponse :=
  match executeCore env (realStepRunner env) inputs with
  | .ok res => res
  | .error e =>
      { success := false
        error := some e
        final_answer := some (getFallbackResult env.todayISO [] "response_formatter") }

/-- Modelled from the spec: the YAML workflow document
(`src/data/smart-kissan-agent.yaml`) is not among the provided sources.
Its step list is reconstructed from spec section 4.4: the six steps in
declaration order with the tabulated ids and types; guard expressions and
prompt templates are not specified there and are left empty, and output
names are the bag keys the source handlers read
(`weather_data`, `soil_data`, `disease_report`, `allocation_plan`). -/
def specWorkflow : List WorkflowStep :=
  [{ id := "query_refiner", stepType := "model_call", output := "refined_query" },
   { id := "weather_api", stepType := "api_call", output := "weather_data" },
   { id := "soil_data", stepType := "python", output := "soil_data" },
   { id := "disease_detection", stepType := "model_call", output := "disease_report" },
   { id := "allocation_agent", stepType := "model_call", output := "allocation_plan" },
   { id := "response_formatter", stepType := "model_call", output := "final_answer" }]

/-! ### Interleaved execution of two `execute` calls (for spec section 5)

`workflowResults` is a private *instance* field of the module-level
singleton `smartKissanAgent` (source lines 960-962, 1397), reassigned at
the start of every `execute` call (line 975).  `execute` is `async` and
every step result is `await`ed (line 988), so between a step's
computation and the write of its result into `this.workflowResults`
control can pass to another pending `execute` call on the same singleton.
The machine below makes those await boundaries explicit: each atomic
block reads the shared field, computes the next non-skipped step's
result, and yields; on resumption it writes the pending result back into
whatever the shared field holds *now*.  A scheduler then interleaves two
calls over the shared field. -/

/-- Progress of one suspended `execute` call: not yet started, suspended
at the `await` of a computed step result (with the steps that remain
after it), or returned. -/
inductive CallPhase : Type
  | notStarted : CallPhase
  | waiting : List WorkflowStep → WorkflowStep → Except String Value → CallPhase
  | finished : CallPhase

structure CallState where
  inp : AgentInput
  phase : CallPhase
  res : AgentResponse

/-- Walk forward over guard-skipped steps (skipping does not `await`)
and compute the first runnable step's result from the shared field. -/
def findAndCompute (env : Env) (σ : Bag) :
    List WorkflowStep → Option (WorkflowStep × List WorkflowStep × Except String Value)
  | [] => none
  | st :: rest =>
      if stepSkipped σ st then findAndCompute env σ rest
      else some (st, rest, executeStep env σ st)

/-- One atomic block of a call, between two `await` boundaries, acting on
the shared `workflowResults` field `σ`. -/
def runBlock (env : Env) (wf : List WorkflowStep) (σ : Bag) (cs : CallState) :
    Bag × CallState :=
  match cs.phase with
  | .finished => (σ, cs)
  | .notStarted =>
      let σ1 := initialBag cs.inp
      (σ1, match findAndCompute env σ1 wf with
           | none => { cs with phase := .finished }
           | some (st, rest, r) => { cs with phase := .waiting rest st r })
  | .waiting rest st r =>
      let s2 := writeBack env σ st r cs.res
      (s2.1, match findAndCompute env s2.1 rest with
             | none => { cs with res := s2.2, phase := .finished }
             | some (st2, rest2, r2) => { cs with res := s2.2, phase := .waiting rest2 st2 r2 })

/-- Run one call to completion without further interleaving. -/
def drainCall (env : Env) (wf : List WorkflowStep) :
    ℕ → Bag → CallState → Bag × CallState
  | 0, σ, cs => (σ, cs)
  | n + 1, σ, cs =>
      match cs.phase with
      | .finished => (σ, cs)
      | _ =>
          let s2 := runBlock env wf σ cs
          drainCall env wf n s2.1 s2.2

/-- A full, uninterleaved run of one `execute` call on the machine,
starting from whatever the shared field held before the call. -/
def machineRun (env : Env) (wf : List WorkflowStep) (σ0 : Bag) (inp : AgentInput) :
    AgentResponse :=
  (drainCall env wf (wf.length + 2) σ0 ⟨inp, .notStarted, { success := true }⟩).2.res

/-- Interleave two `execute` calls on the shared field under a schedule
(`true` runs a block of call A, `false` of call B), then drain both. -/
def interleaveRun (env : Env) (wf : List WorkflowStep) (sched : List Bool)
    (inpA inpB : AgentInput) : AgentResponse × AgentResponse :=
  let step := fun (s : Bag × CallState × CallState) (pick : Bool) =>
    if pick then
      let t := runBlock env wf s.1 s.2.1
      (t.1, t.2, s.2.2)
    else
      let t := runBlock env wf s.1 s.2.2
      (t.1, s.2.1, t.2)
  let s1 := sched.foldl step ([], ⟨inpA, .notStarted, { success := true }⟩,
    ⟨inpB, .notStarted, { success := true }⟩)
  let dA := drainCall env wf (wf.length + 2) s1.1 s1.2.1
  let dB := drainCall env wf (wf.length + 2) dA.1 s1.2.2
  (dA.2.res, dB.2.res)

/-! ### Shared concrete instances for witnesses and counterexamples -/

/-- A concrete environment: the spec-modelled workflow, a failing weather
fetch, constant-zero random draws, and a fixed clock. -/
def sampleEnv : Env :=
  { configWorkflow := .ok specWorkflow
    fetchOutcome := .transportError
    soilRand := fun _ => 0
    diseaseRand := 0
    todayISO := "2025-09-30"
    toISODate := fun d => "2025-09-" ++ ⟨natDigits d⟩ }

/-- A step runner on which every handler invocation throws. -/
def failRunner : StepRunner := fun _ _ => .error "handler failure"

/-- The strictly alternating schedule of two overlapping calls (the JS
microtask queue interleaves two same-tick `execute` calls this way):
seven blocks each. -/
def lockstepSchedule : List Bool :=
  [true, false, true, false, true, false, true, false, true, false,
   true, false, true, false]

/-! ### C6: weather fallback on provider failure -/

/-- C6: if the weather provider call fails (non-2xx response or transport
error), `getWeatherData` returns exactly the fixed fallback record:
temp 28, humidity 65, pressure 1013, description "clear sky",
wind speed 3.5. -/
theorem c6_weather_failure_returns_fallback (outcome : FetchOutcome)
    (h : outcome = .transportError ∨ ∃ body, outcome = .response false body) :
    getWeatherData outcome = fallbackWeatherData ∧
    fallbackWeatherData.main.temp = 28 ∧
    fallbackWeatherData.main.humidity = 65 ∧
    fallbackWeatherData.main.pressure = 1013 ∧
    fallbackWeatherData.weather.map (fun c => c.description) = ["clear sky"] ∧
    fallbackWeatherData.wind.speed = 3.5 := by
  refine ⟨?_, rfl, rfl, rfl, rfl, by norm_num [fallbackWeatherData]⟩
  rcases h with h | ⟨body, h⟩ <;> subst h <;> rfl

/-- Witness for C6 at the concrete transport-error outcome. -/
theorem c6_weather_failure_returns_fallback_witness :
    getWeatherData .transportError = fallbackWeatherData ∧
    fallbackWeatherData.main.temp = 28 ∧
    fallbackWeatherData.main.humidity = 65 ∧
    fallbackWeatherData.main.pressure = 1013 ∧
    fallbackWeatherData.weather.map (fun c => c.description) = ["clear sky"] ∧
    fallbackWeatherData.wind.speed = 3.5 :=
  c6_weather_failure_returns_fallback .transportError (Or.inl rfl)

/-! ### C8: the fallback table is not entirely static -/

/-- C8 counterexample: the `allocation_agent` fallback embeds the
caller's `farmer_query` read from the live result bag
(`this.workflowResults.inputs?.farmer_query || 'Resource request'`,
source line 1372), so two executions with different inputs receive
different fallback values — refuting "the fallback value substituted when
that step's handler throws is the same static value for every execution
state". -/
theorem c8_fallback_not_static_counterexample :
    ((getProp (getFallbackResult "2025-09-30" (initialBag ⟨"water please"⟩)
        "allocation_agent") "request").bind Value.asString = some "water please") ∧
    ((getProp (getFallbackResult "2025-09-30" (initialBag ⟨"khad needed"⟩)
        "allocation_agent") "request").bind Value.asString = some "khad needed") ∧
    getFallbackResult "2025-09-30" (initialBag ⟨"water please"⟩) "allocation_agent" ≠
      getFallbackResult "2025-09-30" (initialBag ⟨"khad needed"⟩) "allocation_agent" := by
  refine ⟨by decide, by decide, fun h => ?_⟩
  have h2 := congrArg (fun v => (getProp v "request").bind Value.asString) h
  exact absurd h2 (by decide)

/-- C8 amended: for every step id other than `allocation_agent` (whose
fallback echoes the caller's query) and `soil_data` (whose fallback is
stamped with the current date), the fallback value is one fixed constant,
independent of the result bag and of the clock. -/
theorem c8_fallback_static_amended (today today' : String) (bag bag' : Bag)
    (stepId : String) (h1 : stepId ≠ "allocation_agent") (h2 : stepId ≠ "soil_data") :
    getFallbackResult today bag stepId = getFallbackResult today' bag' stepId := by
  unfold getFallbackResult
  split_ifs <;> simp_all

/-- Witness for the amended C8 at a concrete constant step id and two
distinct bags and dates. -/
theorem c8_fallback_static_amended_witness :
    getFallbackResult "2025-09-30" (initialBag ⟨"water please"⟩) "query_refiner" =
      getFallbackResult "2024-01-01" (initialBag ⟨"khad needed"⟩) "query_refiner" :=
  c8_fallback_static_amended _ _ _ _ "query_refiner" (by decide) (by decide)

/-! ### C1: top-level errors are caught and converted -/

/-- C1: `execute` never throws to its caller — it is a total function
into `AgentResponse` — and any exception raised outside the per-step
`try` scope (in this interpreter, a failure of the configuration's
workflow iteration) is converted into a response with `success = false`,
`error` carrying the thrown message, and `final_answer` set to the
response-formatter's fallback paragraph. -/
theorem c1_execute_top_level_error (env : Env) (inputs : AgentInput) (e : String)
    (h : env.configWorkflow = .error e) :
    execute env inputs =
      { success := false
        error := some e
        final_answer := some (vStr generalFarmingFallbackText)
        weather := none, soil := none, disease := none, allocation := none } := by
  unfold execute executeCore
  rw [h]
  simp [Except.bind, getFallbackResult]

/-- Witness for C1 at a concrete failing configuration. -/
theorem c1_execute_top_level_error_witness :
    execute { sampleEnv with configWorkflow := .error "Invalid agent configuration" }
        ⟨"hello"⟩ =
      { success := false
        error := some "Invalid agent configuration"
        final_answer := some (vStr generalFarmingFallbackText)
        weather := none, soil := none, disease := none, allocation := none } :=
  c1_execute_top_level_error _ ⟨"hello"⟩ "Invalid agent configuration" rfl

/-! ### C2: all step handlers failing

A handler failure is a counterfactual for this configuration (for
instance `getWeatherData` catches internally and `simulateQueryRefiner`
cannot throw on string input), so the hypothesis "every step handler
fails" is stated against the executor loop `runSteps` — the very loop
`execute` runs — with an arbitrary all-throwing step runner in place of
`executeStep`. -/

/-- C2 counterexample: with every handler throwing, the per-step `catch`
(source lines 1003-1011) stores each fallback **only in the result bag**
and touches no response field except `final_answer`; the returned
response has `success = true` but `weather`, `soil`, `disease` and
`allocation` all remain unset — refuting "every field of the
AgentResponse is populated from that step's fallback table entry". -/
theorem c2_allfail_fields_unpopulated_counterexample :
    (runSteps sampleEnv failRunner specWorkflow
        (initialBag ⟨"test"⟩, { success := true })).2.success = true ∧
    (runSteps sampleEnv failRunner specWorkflow
        (initialBag ⟨"test"⟩, { success := true })).2.weather = none ∧
    (runSteps sampleEnv failRunner specWorkflow
        (initialBag ⟨"test"⟩, { success := true })).2.soil = none ∧
    (runSteps sampleEnv failRunner specWorkflow
        (initialBag ⟨"test"⟩, { success := true })).2.disease = none ∧
    (runSteps sampleEnv failRunner specWorkflow
        (initialBag ⟨"test"⟩, { success := true })).2.allocation = none ∧
    (runSteps sampleEnv failRunner specWorkflow
        (initialBag ⟨"test"⟩, { success := true })).2.final_answer =
      some (vStr generalFarmingFallbackText) :=
  ⟨rfl, rfl, rfl, rfl, rfl, rfl⟩

/-- C2 amended: if every step handler fails, the executor loop still
completes normally (so `execute`'s outer `try` succeeds and the response
keeps `success = true`; only a configuration-load failure yields
`success = false`), `final_answer` — the only response field the `catch`
populates — carries the response-formatter's fallback text, the other
response fields remain unset, and the per-step fallback values are stored
in the result bag under each step's output key. -/
theorem c2_allfail_amended (env : Env) (run : StepRunner) (q : String)
    (h : ∀ st b, ∃ e, run st b = .error e) :
    (runSteps env run specWorkflow (initialBag ⟨q⟩, { success := true })).2.success = true ∧
    (runSteps env run specWorkflow (initialBag ⟨q⟩, { success := true })).2.weather = none ∧
    (runSteps env run specWorkflow (initialBag ⟨q⟩, { success := true })).2.soil = none ∧
    (runSteps env run specWorkflow (initialBag ⟨q⟩, { success := true })).2.disease = none ∧
    (runSteps env run specWorkflow (initialBag ⟨q⟩, { success := true })).2.allocation = none ∧
    (runSteps env run specWorkflow (initialBag ⟨q⟩, { success := true })).2.final_answer =
      some (vStr generalFarmingFallbackText) ∧
    (getKey (runSteps env run specWorkflow (initialBag ⟨q⟩, { success := true })).1
        "refined_query").bind Value.asString =
      some "general agricultural advice and resource guidance needed" ∧
    (getKey (runSteps env run specWorkflow (initialBag ⟨q⟩, { success := true })).1
        "weather_data").bind Value.asString =
      some "Weather conditions are moderate. Check local forecasts for rain." ∧
    (getKey (runSteps env run specWorkflow (initialBag ⟨q⟩, { success := true })).1
        "final_answer").bind Value.asString = some generalFarmingFallbackText := by
  choose f hf using h
  simp only [specWorkflow, runSteps, stepOnce, stepSkipped, hf, writeBack,
    getFallbackResult, initialBag]
  simp +decide [getKey, setKey, Value.asString]

/-- Witness for the amended C2 at the concrete all-throwing runner. -/
theorem c2_allfail_amended_witness :
    (runSteps sampleEnv failRunner specWorkflow
        (initialBag ⟨"test"⟩, { success := true })).2.success = true ∧
    (runSteps sampleEnv failRunner specWorkflow
        (initialBag ⟨"test"⟩, { success := true })).2.weather = none ∧
    (runSteps sampleEnv failRunner specWorkflow
        (initialBag ⟨"test"⟩, { success := true })).2.soil = none ∧
    (runSteps sampleEnv failRunner specWorkflow
        (initialBag ⟨"test"⟩, { success := true })).2.disease = none ∧
    (runSteps sampleEnv failRunner specWorkflow
        (initialBag ⟨"test"⟩, { success := true })).2.allocation = none ∧
    (runSteps sampleEnv failRunner specWorkflow
        (initialBag ⟨"test"⟩, { success := true })).2.final_answer =
      some (vStr generalFarmingFallbackText) ∧
    (getKey (runSteps sampleEnv failRunner specWorkflow
        (initialBag ⟨"test"⟩, { success := true })).1 "refined_query").bind Value.asString =
      some "general agricultural advice and resource guidance needed" ∧
    (getKey (runSteps sampleEnv failRunner specWorkflow
        (initialBag ⟨"test"⟩, { success := true })).1 "weather_data").bind Value.asString =
      some "Weather conditions are moderate. Check local forecasts for rain." ∧
    (getKey (runSteps sampleEnv failRunner specWorkflow
        (initialBag ⟨"test"⟩, { success := true })).1 "final_answer").bind Value.asString =
      some generalFarmingFallbackText :=
  c2_allfail_amended sampleEnv failRunner "test" (fun _ _ => ⟨"handler failure", rfl⟩)

/-! ### C4: fail-open condition evaluation -/

/-- C4: `evaluateCondition` returns `true` iff the guard parses as
`identifier contains 'literal'` with the identifier bound to a string
that case-insensitively contains the literal, or the guard is
inapplicable (identifier unbound or bound to a non-string) or fails to
parse (fail-open); equivalently, it returns `false` exactly when the
guard parses, the identifier is bound to a string, and that string does
not case-insensitively contain the literal. -/
theorem c4_evaluateCondition_false_iff (bag : Bag) (condition : String) :
    evaluateCondition bag condition = false ↔
    ∃ varName searchTerm value,
      condGrammarMatch condition = some (varName, searchTerm) ∧
      getKey bag varName = some (vStr value) ∧
      strIncludes (strToLower value) (strToLower searchTerm) = false := by
  unfold evaluateCondition
  rcases hm : condGrammarMatch condition with _ | ⟨v, t⟩
  · simp [hm]
  · rcases hk : getKey bag v with _ | val
    · simp [hk]
    · cases val <;> simp [hk]
      case vStr s =>
        constructor
        · intro hf
          exact ⟨v, t, ⟨rfl, rfl⟩, s, hk, hf⟩
        · rintro ⟨v', t', ⟨rfl, rfl⟩, x, hk', hx⟩
          rw [hk] at hk'
          simp only [Option.some.injEq, Value.vStr.injEq] at hk'
          rwa [hk']

/-! ### C5 and C10: template interpolation -/

/-- The literal placeholder text for a path `p`. -/
def placeholderOf (p : String) : String :=
  ⟨openBrace :: openBrace :: (p.data ++ [closeBrace, closeBrace])⟩

theorem takeWhile_append_stop (p rest : List Char) (hnb : closeBrace ∉ p) :
    (p ++ closeBrace :: rest).takeWhile (fun d => d ≠ closeBrace) = p := by
  induction p with
  | nil => simp [List.takeWhile]
  | cons c t ih =>
      simp only [List.mem_cons, not_or] at hnb
      have hc : ¬(c = closeBrace) := fun hh => hnb.1 hh.symm
      have ih2 := ih hnb.2
      simp only [ne_eq, decide_not] at ih2
      simp [List.takeWhile_cons, hc, ih2]

theorem splitPlaceholder_of_shape (p suf : List Char) (hp : p ≠ [])
    (hnb : closeBrace ∉ p) :
    splitPlaceholder (p ++ closeBrace :: closeBrace :: suf) = some (p, suf) := by
  unfold splitPlaceholder placeholderBody
  rw [takeWhile_append_stop p (closeBrace :: suf) hnb]
  rw [List.drop_left]
  simp [hp]

theorem interpList_placeholder (bag : Bag) (p suf : List Char) (hp : p ≠ [])
    (hnb : closeBrace ∉ p) :
    interpList bag (openBrace :: openBrace :: (p ++ closeBrace :: closeBrace :: suf)) =
      placeholderValue bag p ++ interpList bag suf := by
  rw [interpList]
  rw [if_pos rfl]
  split
  case _ =>
    split
    case _ p1 tail hs =>
      rw [splitPlaceholder_of_shape p suf hp hnb] at hs
      simp only [Option.some.injEq, Prod.mk.injEq] at hs
      obtain ⟨rfl, rfl⟩ := hs
      rfl
    case _ hs =>
      rw [splitPlaceholder_of_shape p suf hp hnb] at hs
      exact absurd hs (by simp)
  case _ hneg => exact absurd rfl hneg

theorem interpList_copy (bag : Bag) (l : List Char) (rest : List Char)
    (h : openBrace ∉ l) : interpList bag (l ++ rest) = l ++ interpList bag rest := by
  induction l with
  | nil => simp
  | cons c t ih =>
      simp only [List.mem_cons, not_or] at h
      have hc : ¬(c = openBrace) := fun hh => h.1 hh.symm
      rw [List.cons_append, interpList.eq_def]
      simp only [hc, if_false]
      rw [ih h.2]
      simp

theorem interpList_nil (bag : Bag) : interpList bag [] = [] := by
  rw [interpList.eq_def]

theorem strDataAppend (a b : String) : (a ++ b).data = a.data ++ b.data := rfl

/-- C5: template interpolation replaces a `\x7b\x7bdotted.path\x7d\x7d` placeholder
by the bound value verbatim when that value is a string, by its JSON
textual form when it is any other defined value, and leaves the
placeholder text unchanged (without error) when path resolution yields
`undefined`; surrounding text is copied, and scanning continues after the
placeholder. -/
theorem c5_interpolateTemplate_placeholder (bag : Bag) (pre p suf : String)
    (hpre : openBrace ∉ pre.data) (hp : p.data ≠ []) (hnb : closeBrace ∉ p.data) :
    interpolateTemplate bag (pre ++ placeholderOf p ++ suf) =
      pre ++ (match resolvePath bag p with
              | some (vStr s) => s
              | some v => stringify v
              | none => placeholderOf p) ++ interpolateTemplate bag suf := by
  apply String.ext
  unfold interpolateTemplate
  have hdata : (pre ++ placeholderOf p ++ suf).data =
      pre.data ++ (openBrace :: openBrace :: (p.data ++ closeBrace :: closeBrace :: suf.data)) := by
    simp [strDataAppend, placeholderOf]
  rw [hdata]
  rw [interpList_copy bag pre.data _ hpre]
  rw [interpList_placeholder bag p.data suf.data hp hnb]
  unfold placeholderValue
  have hps : (⟨p.data⟩ : String) = p := rfl
  rw [hps]
  rcases hr : resolvePath bag p with _ | val
  · simp [strDataAppend, placeholderOf]
  · cases val <;> simp [strDataAppend]

/-- Witness for C5 on the spec's own example: a crafted bag binding
`weather.main.temp` to the number 28. -/
theorem c5_interpolateTemplate_placeholder_witness :
    interpolateTemplate [("weather", vObj [("main", vObj [("temp", vNum 28)])])]
        ("Temp: " ++ placeholderOf "weather.main.temp" ++ "") = "Temp: 28" := by
  have h := c5_interpolateTemplate_placeholder
    [("weather", vObj [("main", vObj [("temp", vNum 28)])])]
    "Temp: " "weather.main.temp" "" (by decide) (by decide) (by decide)
  rw [h]
  have hr : resolvePath [("weather", vObj [("main", vObj [("temp", vNum 28)])])]
      "weather.main.temp" = some (vNum 28) := rfl
  rw [hr]
  have hnil : interpolateTemplate [("weather", vObj [("main", vObj [("temp", vNum 28)])])]
      "" = "" := by
    unfold interpolateTemplate
    rw [show ("" : String).data = [] from rfl, interpList_nil]
  rw [hnil]
  decide

/-- Does the template scan of `interpolateTemplate`'s regex find a
placeholder anywhere in the characters?  Mirrors the scanning advance of
`interpList` without performing replacements. -/
def containsPlaceholder : List Char → Bool
  | [] => false
  | c :: cs =>
      if c = openBrace then
        match cs with
        | c2 :: cs2 =>
            if c2 = openBrace then
              match splitPlaceholder cs2 with
              | some _ => true
              | none => containsPlaceholder (c2 :: cs2)
            else containsPlaceholder (c2 :: cs2)
        | [] => false
      else containsPlaceholder cs

/-- C10: on a string containing no `\x7b\x7b...\x7d\x7d` placeholder, template
interpolation is the identity. -/
theorem c10_interpolateTemplate_id (bag : Bag) (t : String)
    (h : containsPlaceholder t.data = false) : interpolateTemplate bag t = t := by
  apply String.ext
  unfold interpolateTemplate
  show interpList bag t.data = t.data
  generalize t.data = l at h ⊢
  induction l using containsPlaceholder.induct with
  | case1 => rw [interpList_nil]
  | case2 cs2 pr heq =>
      rw [containsPlaceholder.eq_def] at h
      simp [heq] at h
  | case3 cs2 heq ih =>
      rw [containsPlaceholder.eq_def] at h
      simp only [heq] at h
      simp at h
      rw [interpList]
      rw [if_pos rfl]
      split
      case _ =>
        split
        case _ p1 tail hs =>
          rw [heq] at hs
          exact absurd hs (by simp)
        case _ hs => rw [ih h]
      case _ hneg => exact absurd rfl hneg
  | case4 c cs hc ih =>
      rw [containsPlaceholder.eq_def] at h
      simp only [hc] at h
      simp at h
      rw [interpList]
      rw [if_pos rfl]
      rw [if_neg hc]
      rw [ih h]
  | case5 =>
      rw [interpList]
      rw [if_pos rfl]
  | case6 c cs hc ih =>
      rw [containsPlaceholder.eq_def] at h
      simp only [hc, if_false] at h
      rw [interpList.eq_def]
      simp only [hc, if_false]
      rw [ih h]

/-- Witness for C10 at a concrete placeholder-free template. -/
theorem c10_interpolateTemplate_id_witness :
    containsPlaceholder ("hello farmer" : String).data = false ∧
    interpolateTemplate [("inputs", vObj [("farmer_query", vStr "x")])] "hello farmer" =
      "hello farmer" :=
  ⟨by decide, c10_interpolateTemplate_id _ "hello farmer" (by decide)⟩

/-! ### C3: the soil generator -/

theorem soilT10_lt_soilT0 (r1 r2 : ℚ) (h2 : 0 ≤ r2) : soilT10 r1 r2 < soilT0 r1 := by
  unfold soilT10 soilT0 jsRound
  set n : ℤ := ⌊(r1 * (300 - 293) + 293) * 100 + 1 / 2⌋ with hn
  have hle : ((n : ℚ) / 100 - (r2 * (3 - 1.5) + 1.5)) * 100 + 1 / 2 ≤ (n : ℚ) - 299 / 2 := by
    have h150 : (0 : ℚ) ≤ 150 * r2 := by positivity
    ring_nf
    linarith
  have hfloor : ⌊((n : ℚ) / 100 - (r2 * (3 - 1.5) + 1.5)) * 100 + 1 / 2⌋ ≤ n - 150 := by
    calc ⌊((n : ℚ) / 100 - (r2 * (3 - 1.5) + 1.5)) * 100 + 1 / 2⌋
        ≤ ⌊(n : ℚ) - 299 / 2⌋ := Int.floor_le_floor hle
      _ = n - 150 := by
          have hrw : (n : ℚ) - 299 / 2 = (-299 / 2 : ℚ) + (n : ℤ) := by ring
          rw [hrw, Int.floor_add_int]
          have hneg : ⌊(-299 / 2 : ℚ)⌋ = -150 := by
            rw [Int.floor_eq_iff]
            norm_num
          omega
  have hcast : ((⌊((n : ℚ) / 100 - (r2 * (3 - 1.5) + 1.5)) * 100 + 1 / 2⌋ : ℤ) : ℚ) ≤
      (n : ℚ) - 150 := by exact_mod_cast hfloor
  have hfinal : ((⌊((n : ℚ) / 100 - (r2 * (3 - 1.5) + 1.5)) * 100 + 1 / 2⌋ : ℤ) : ℚ) < (n : ℚ) := by
    linarith
  gcongr

theorem soilMoisture_bounds (r3 : ℚ) (h3 : 0 ≤ r3) (h3' : r3 < 1) :
    (0.18 : ℚ) ≤ soilMoisture r3 ∧ soilMoisture r3 ≤ (0.26 : ℚ) := by
  unfold soilMoisture jsRound
  have hlo : (18 : ℤ) ≤ ⌊(r3 * (0.26 - 0.18) + 0.18) * 100 + 1 / 2⌋ := by
    rw [Int.le_floor]
    push_cast
    nlinarith
  have hhi : ⌊(r3 * (0.26 - 0.18) + 0.18) * 100 + 1 / 2⌋ ≤ 26 := by
    have hlt : ⌊(r3 * (0.26 - 0.18) + 0.18) * 100 + 1 / 2⌋ < 27 := by
      rw [Int.floor_lt]
      push_cast
      nlinarith
    omega
  constructor
  · calc (0.18 : ℚ) = 18 / 100 := by norm_num
      _ ≤ (⌊(r3 * (0.26 - 0.18) + 0.18) * 100 + 1 / 2⌋ : ℚ) / 100 := by
          gcongr
          exact_mod_cast hlo
  · calc ((⌊(r3 * (0.26 - 0.18) + 0.18) * 100 + 1 / 2⌋ : ℤ) : ℚ) / 100
        ≤ 26 / 100 := by
          gcongr
          exact_mod_cast hhi
      _ = (0.26 : ℚ) := by norm_num

theorem mkSoilSample_props (dateStr : ℕ → String) (day hour : ℕ) (r1 r2 r3 : ℚ)
    (h2 : 0 ≤ r2) (h3 : 0 ≤ r3) (h3' : r3 < 1) :
    (mkSoilSample dateStr day hour r1 r2 r3).t10 < (mkSoilSample dateStr day hour r1 r2 r3).t0 ∧
    (0.18 : ℚ) ≤ (mkSoilSample dateStr day hour r1 r2 r3).moisture ∧
    (mkSoilSample dateStr day hour r1 r2 r3).moisture ≤ (0.26 : ℚ) :=
  ⟨soilT10_lt_soilT0 r1 r2 h2, (soilMoisture_bounds r3 h3 h3').1, (soilMoisture_bounds r3 h3 h3').2⟩

theorem generateSoilData_expand (dateStr : ℕ → String) (rnd : ℕ → ℚ) :
    generateSoilData dateStr rnd =
      [mkSoilSample dateStr 24 9 (rnd 0) (rnd 1) (rnd 2),
       mkSoilSample dateStr 24 15 (rnd 3) (rnd 4) (rnd 5),
       mkSoilSample dateStr 25 9 (rnd 6) (rnd 7) (rnd 8),
       mkSoilSample dateStr 25 15 (rnd 9) (rnd 10) (rnd 11),
       mkSoilSample dateStr 26 9 (rnd 12) (rnd 13) (rnd 14),
       mkSoilSample dateStr 26 15 (rnd 15) (rnd 16) (rnd 17),
       mkSoilSample dateStr 27 9 (rnd 18) (rnd 19) (rnd 20),
       mkSoilSample dateStr 27 15 (rnd 21) (rnd 22) (rnd 23),
       mkSoilSample dateStr 28 9 (rnd 24) (rnd 25) (rnd 26),
       mkSoilSample dateStr 28 15 (rnd 27) (rnd 28) (rnd 29),
       mkSoilSample dateStr 29 9 (rnd 30) (rnd 31) (rnd 32),
       mkSoilSample dateStr 29 15 (rnd 33) (rnd 34) (rnd 35)] := by
  unfold generateSoilData
  simp [soilLoop]

/-- C3: for every sequence of random draws in `[0, 1)`, the soil
generator returns exactly 12 samples — two per day at 09:00 and 15:00
over the six days September 24-29 — and in every sample `t10 < t0` and
`0.18 ≤ moisture ≤ 0.26`. -/
theorem c3_generateSoilData_spec (dateStr : ℕ → String) (rnd : ℕ → ℚ)
    (h : ∀ i, 0 ≤ rnd i ∧ rnd i < 1) :
    (generateSoilData dateStr rnd).length = 12 ∧
    (generateSoilData dateStr rnd).map (fun s => s.time) =
      ["09:00", "15:00", "09:00", "15:00", "09:00", "15:00",
       "09:00", "15:00", "09:00", "15:00", "09:00", "15:00"] ∧
    (generateSoilData dateStr rnd).map (fun s => s.date) =
      [dateStr 24, dateStr 24, dateStr 25, dateStr 25, dateStr 26, dateStr 26,
       dateStr 27, dateStr 27, dateStr 28, dateStr 28, dateStr 29, dateStr 29] ∧
    ∀ s ∈ generateSoilData dateStr rnd,
      s.t10 < s.t0 ∧ (0.18 : ℚ) ≤ s.moisture ∧ s.moisture ≤ (0.26 : ℚ) := by
  rw [generateSoilData_expand]
  refine ⟨by simp, ?_, by simp [mkSoilSample], ?_⟩
  · simp only [List.map_cons, List.map_nil, mkSoilSample]
    have h9 : hourLabel 9 = "09:00" := by decide
    have h15 : hourLabel 15 = "15:00" := by decide
    simp [h9, h15]
  · intro s hs
    simp only [List.mem_cons, List.not_mem_nil, or_false] at hs
    rcases hs with rfl | rfl | rfl | rfl | rfl | rfl | rfl | rfl | rfl | rfl | rfl | rfl <;>
      exact mkSoilSample_props _ _ _ _ _ _ (h _).1 (h _).1 (h _).2

/-- Witness for C3 at the constant-zero draw stream. -/
theorem c3_generateSoilData_spec_witness :
    (generateSoilData (fun _ => "2025-09-24") (fun _ => 0)).length = 12 ∧
    (generateSoilData (fun _ => "2025-09-24") (fun _ => 0)).map (fun s => s.time) =
      ["09:00", "15:00", "09:00", "15:00", "09:00", "15:00",
       "09:00", "15:00", "09:00", "15:00", "09:00", "15:00"] ∧
    (generateSoilData (fun _ => "2025-09-24") (fun _ => 0)).map (fun s => s.date) =
      ["2025-09-24", "2025-09-24", "2025-09-24", "2025-09-24", "2025-09-24", "2025-09-24",
       "2025-09-24", "2025-09-24", "2025-09-24", "2025-09-24", "2025-09-24", "2025-09-24"] ∧
    ∀ s ∈ generateSoilData (fun _ => "2025-09-24") (fun _ => 0),
      s.t10 < s.t0 ∧ (0.18 : ℚ) ≤ s.moisture ∧ s.moisture ≤ (0.26 : ℚ) :=
  c3_generateSoilData_spec (fun _ => "2025-09-24") (fun _ => 0)
    (fun _ => ⟨le_refl 0, by norm_num⟩)

/-! ### C7: the response formatter's length gate -/

theorem strLenAppend (a b : String) : (a ++ b).length = a.length + b.length :=
  List.length_append a.data b.data

theorem natDigitsAux_len : ∀ fuel n acc, acc.length ≤ (natDigitsAux fuel n acc).length := by
  intro fuel
  induction fuel with
  | zero => intro n acc; simp [natDigitsAux]
  | succ f ih =>
      intro n acc
      rw [natDigitsAux]
      split
      · simp
      · calc acc.length ≤ (Char.ofNat (48 + n % 10) :: acc).length := by simp
          _ ≤ _ := ih _ _

theorem natDigits_ne_nil (n : ℕ) : natDigits n ≠ [] := by
  unfold natDigits
  rw [natDigitsAux]
  split
  · simp
  · intro hcon
    have hlen := natDigitsAux_len n (n / 10) [Char.ofNat (48 + n % 10)]
    rw [hcon] at hlen
    simp at hlen

theorem intToStr_len (i : ℤ) : 1 ≤ (intToStr i).length := by
  unfold intToStr
  split
  · simp [String.length]
  · show 1 ≤ (natDigits i.natAbs).length
    have := natDigits_ne_nil i.natAbs
    cases hd : natDigits i.natAbs with
    | nil => exact absurd hd this
    | cons c t => simp

theorem ratToString_len (q : ℚ) : 1 ≤ (ratToString q).length := by
  unfold ratToString
  split
  · exact intToStr_len _
  · rw [strLenAppend, strLenAppend]
    have := intToStr_len q.num
    omega

theorem toFixed0_len (q : ℚ) : 1 ≤ (toFixed0 q).length := intToStr_len _

theorem weatherBlock_len (w : Option WeatherData) :
    (weatherBlock w).length = 0 ∨ 19 ≤ (weatherBlock w).length := by
  cases w with
  | none => left; rfl
  | some w =>
      right
      simp only [weatherBlock, strLenAppend]
      have : ("Current temperature is " : String).length = 23 := by decide
      omega

theorem soilBlock_len (s : Option (List SoilData)) :
    (soilBlock s).length = 0 ∨ 19 ≤ (soilBlock s).length := by
  cases s with
  | none => left; rfl
  | some l =>
      rw [soilBlock]
      cases hl : l.getLast? with
      | none => left; rfl
      | some latest =>
          right
          simp only [strLenAppend]
          have : ("Your soil moisture is at " : String).length = 25 := by decide
          omega

theorem diseaseBlock_len (d : Option DiseaseReport) :
    (diseaseBlock d).length = 0 ∨ 19 ≤ (diseaseBlock d).length := by
  cases d with
  | none => left; rfl
  | some d =>
      right
      rw [diseaseBlock]
      split
      · simp only [strLenAppend]
        have : ("I noticed signs of " : String).length = 19 := by decide
        omega
      · decide

theorem allocationBlock_len (a : Option AllocationPlan) :
    (allocationBlock a).length = 0 ∨ 19 ≤ (allocationBlock a).length := by
  cases a with
  | none => left; rfl
  | some a =>
      right
      simp only [allocationBlock, strLenAppend]
      have : ("Regarding your request for resources, I can approve " : String).length = 52 := by
        decide
      omega

theorem starterText_len (q : String) (w : Option WeatherData) :
    (starterText q w).length = 85 ∨ (starterText q w).length = 117 ∨
    (starterText q w).length = 44 ∨ (starterText q w).length = 33 ∨
    (starterText q w).length = 32 := by
  unfold starterText
  dsimp only
  repeat' split
  all_goals decide

theorem starterText_headcases (q : String) (w : Option WeatherData) :
    (starterText q w).data.head? = some 'B' ∨ (starterText q w).data.head? = some 'I' ∨
    (starterText q w).data.head? = some 'R' := by
  unfold starterText
  dsimp only
  repeat' split
  all_goals decide

theorem assembleText_length_ne_50 (q : String) (w : Option WeatherData)
    (s : Option (List SoilData)) (d : Option DiseaseReport) (al : Option AllocationPlan) :
    (assembleText q w s d al).length ≠ 50 := by
  simp only [assembleText, strLenAppend]
  rcases starterText_len q w with h0 | h0 | h0 | h0 | h0 <;>
    rcases weatherBlock_len w with h1 | h1 <;>
    rcases soilBlock_len s with h2 | h2 <;>
    rcases diseaseBlock_len d with h3 | h3 <;>
    rcases allocationBlock_len al with h4 | h4 <;>
    omega

theorem dropWhile_eq_self_of_head (l : List Char)
    (h : ∀ c, l.head? = some c → isWsChar c = false) : l.dropWhile isWsChar = l := by
  cases l with
  | nil => rfl
  | cons c t =>
      rw [List.dropWhile_cons]
      rw [if_neg]
      simp [h c rfl]

theorem jsTrim_eq_self (s : String)
    (h1 : ∀ c, s.data.head? = some c → isWsChar c = false)
    (h2 : ∀ c, s.data.getLast? = some c → isWsChar c = false) : jsTrim s = s := by
  unfold jsTrim
  rw [dropWhile_eq_self_of_head s.data h1]
  rw [dropWhile_eq_self_of_head s.data.reverse (by
    intro c hc
    rw [List.head?_reverse] at hc
    exact h2 c hc)]
  rw [List.reverse_reverse]

theorem head?_append_left (a b : List Char) (h : a ≠ []) : (a ++ b).head? = a.head? := by
  cases a with
  | nil => exact absurd rfl h
  | cons c t => rfl

theorem getLast?_append_right (a b : List Char) (h : b ≠ []) :
    (a ++ b).getLast? = b.getLast? := by
  rw [← List.head?_reverse, ← List.head?_reverse]
  rw [List.reverse_append]
  apply head?_append_left
  simp [h]

/-- The second-to-last character of a string. -/
def lastTwoChar (s : String) : Option Char := s.data.reverse.tail.head?

theorem lastTwoChar_append (a b : String) (hb : 2 ≤ b.data.length) :
    lastTwoChar (a ++ b) = lastTwoChar b := by
  unfold lastTwoChar
  rw [strDataAppend, List.reverse_append]
  rcases hrev : b.data.reverse with _ | ⟨c1, _ | ⟨c2, t⟩⟩
  · have hl := congrArg List.length hrev
    rw [List.length_reverse] at hl
    simp only [List.length_nil] at hl
    omega
  · have hl := congrArg List.length hrev
    rw [List.length_reverse] at hl
    simp only [List.length_cons, List.length_nil] at hl
    omega
  · simp

set_option maxRecDepth 4000 in
theorem jsTrim_fallback : jsTrim generalFarmingFallbackText = generalFarmingFallbackText := by
  decide

set_option maxRecDepth 4000 in
/-- C7: for every typed result-bag contents, the formatter returns the
generic fallback paragraph whenever the assembled text is shorter than 50
characters, and otherwise (length at least 50 — the assembled text can
never be exactly 50 characters, so the source's strict `> 50` test
agrees) returns the assembled keyword- and data-conditioned text with the
farming tips appended, which is never the fallback paragraph. -/
theorem c7_formatter_length_gate (q : String) (w : Option WeatherData)
    (s : Option (List SoilData)) (d : Option DiseaseReport) (al : Option AllocationPlan) :
    ((assembleText q w s d al).length < 50 →
      simulateResponseFormatter q w s d al = generalFarmingFallbackText) ∧
    (50 ≤ (assembleText q w s d al).length →
      simulateResponseFormatter q w s d al = assembleText q w s d al ++ proTips ∧
      simulateResponseFormatter q w s d al ≠ generalFarmingFallbackText) := by
  constructor
  · intro hlt
    unfold simulateResponseFormatter
    rw [if_neg (by omega)]
    exact jsTrim_fallback
  · intro hge
    have hne := assembleText_length_ne_50 q w s d al
    have hgt : 50 < (assembleText q w s d al).length := by omega
    have hs0 : (starterText q w).data ≠ [] := by
      rcases starterText_headcases q w with h | h | h <;>
        (intro hn; rw [hn] at h; exact absurd h (by simp))
    have hdata : (assembleText q w s d al ++ proTips).data =
        (starterText q w).data ++ ((weatherBlock w).data ++ ((soilBlock s).data ++
          ((diseaseBlock d).data ++ ((allocationBlock al).data ++ proTips.data)))) := by
      simp [assembleText, strDataAppend]
    have hhead : ∀ c, (assembleText q w s d al ++ proTips).data.head? = some c →
        isWsChar c = false := by
      intro c hc
      rw [hdata, head?_append_left _ _ hs0] at hc
      rcases starterText_headcases q w with h | h | h <;>
        (rw [h] at hc; injection hc with hc; rw [← hc]; decide)
    have hlast : ∀ c, (assembleText q w s d al ++ proTips).data.getLast? = some c →
        isWsChar c = false := by
      intro c hc
      rw [strDataAppend, getLast?_append_right _ _ (by decide)] at hc
      have : proTips.data.getLast? = some '.' := by decide
      rw [this] at hc
      injection hc with hc
      rw [← hc]
      decide
    have hresult : simulateResponseFormatter q w s d al =
        assembleText q w s d al ++ proTips := by
      unfold simulateResponseFormatter
      rw [if_pos hgt]
      exact jsTrim_eq_self _ hhead hlast
    refine ⟨hresult, ?_⟩
    rw [hresult]
    intro habs
    have h2 := congrArg lastTwoChar habs
    rw [lastTwoChar_append _ _ (by decide)] at h2
    exact absurd h2 (by decide)

set_option maxRecDepth 4000 in
/-- Witness for C7: an empty bag assembles the 32-character generic
starter alone, which is below the 50-character gate, so the formatter
returns the fallback paragraph. -/
theorem c7_formatter_length_gate_witness :
    (assembleText "" none none none none).length < 50 ∧
    simulateResponseFormatter "" none none none none = generalFarmingFallbackText :=
  ⟨by decide, (c7_formatter_length_gate "" none none none none).1 (by decide)⟩

/-! ### C9: the result bag is shared instance state -/

theorem drainCall_resume_eq (env : Env) (wf : List WorkflowStep) (inp : AgentInput) :
    ∀ (steps : List WorkflowStep) (n : ℕ) (σ : Bag) (res : AgentResponse),
      steps.length ≤ n →
      (drainCall env wf n σ
        (match findAndCompute env σ steps with
         | none => ⟨inp, .finished, res⟩
         | some (st2, rest2, r2) => ⟨inp, .waiting rest2 st2 r2, res⟩)).2.res =
      (runSteps env (realStepRunner env) steps (σ, res)).2 := by
  intro steps
  induction steps with
  | nil =>
      intro n σ res hn
      simp only [findAndCompute, runSteps]
      cases n <;> simp [drainCall]
  | cons st2 rest ih =>
      intro n σ res hn
      rw [findAndCompute]
      by_cases hskip : stepSkipped σ st2
      · rw [if_pos hskip]
        have hrs : runSteps env (realStepRunner env) (st2 :: rest) (σ, res) =
            runSteps env (realStepRunner env) rest (σ, res) := by
          rw [runSteps, stepOnce, if_pos hskip]
        rw [hrs]
        exact ih n σ res (by simp at hn; omega)
      · rw [if_neg hskip]
        cases n with
        | zero => simp at hn
        | succ m =>
            rw [drainCall]
            simp only [runBlock]
            rw [runSteps, stepOnce, if_neg hskip]
            have hrun : realStepRunner env st2 σ = executeStep env σ st2 := rfl
            rw [hrun]
            exact ih m (writeBack env σ st2 (executeStep env σ st2) res).1
              (writeBack env σ st2 (executeStep env σ st2) res).2 (by simp at hn; omega)

/-- C9 amended (isolation half): a call run to completion on the machine
is independent of whatever the shared `workflowResults` field held before
it, because `execute` begins by reassigning the field
(`this.workflowResults = { inputs }`, source line 975); an uninterleaved
machine run from any prior field state computes exactly `execute`. -/
theorem c9_machineRun_eq_execute (env : Env) (wf : List WorkflowStep) (σ0 : Bag)
    (inp : AgentInput) (h : env.configWorkflow = .ok wf) :
    machineRun env wf σ0 inp = execute env inp := by
  unfold machineRun execute executeCore
  rw [h]
  show (drainCall env wf (wf.length + 2) σ0 ⟨inp, .notStarted, { success := true }⟩).2.res = _
  rw [drainCall]
  simp only [runBlock]
  rw [drainCall_resume_eq env wf inp wf (wf.length + 1) (initialBag inp)
    { success := true } (by omega)]
  rfl

/-- Witness for the amended C9: a machine run starting from a stale,
non-empty leftover field equals `execute` on the same input. -/
theorem c9_machineRun_eq_execute_witness :
    machineRun sampleEnv specWorkflow [("stale", vStr "junk")] ⟨"I need water please"⟩ =
      execute sampleEnv ⟨"I need water please"⟩ :=
  c9_machineRun_eq_execute sampleEnv specWorkflow [("stale", vStr "junk")]
    ⟨"I need water please"⟩ rfl

/-- C9 counterexample: `workflowResults` is an instance field of the
module-level singleton, so two interleaved `execute` calls share it.
Under the strictly alternating schedule that the JS microtask queue
produces for two same-tick calls, call A resumes after call B has
reassigned the field, and A's allocation step reads
`inputs.farmer_query` from B's bag: A's response echoes B's query, not
its own — refuting "concurrent invocations of execute are isolated by
construction: neither call's step results can be observed by or
interfere with the other's".  (An isolated run of the same input echoes
its own query, second conjunct.) -/
theorem c9_shared_bag_interference_counterexample :
    ((interleaveRun sampleEnv specWorkflow lockstepSchedule ⟨"I need water please"⟩
        ⟨"fertilizer khad needed"⟩).1.allocation.bind
      (fun v => getProp v "request")).bind Value.asString = some "fertilizer khad needed" ∧
    ((execute sampleEnv ⟨"I need water please"⟩).allocation.bind
      (fun v => getProp v "request")).bind Value.asString = some "I need water please" :=
  ⟨by decide, by decide⟩
